import Mathlib

/-!
Shallow embedding of `src/uhidgamepad/core.py` (class `Gamepad`) and proofs
about its behaviour.

Modelling conventions:
* Python `int` is modelled by `Int` (button numbers, joystick values) or by
  `Nat` (the non-negative button bitfield, which starts at 0 and is only
  changed by `|=` with a positive mask and `&= ~mask`).
* The two reusable 12-byte buffers `_report` and `_last_report` are `List Nat`
  (each entry one byte value).
* Raising an exception is modelled by an `Option Err` component of the result;
  since a Python exception propagates while leaving the object's already
  mutated fields in place, every operation returns the (possibly partially
  mutated) object together with the error.
* The transport call `self._device.send_input(...)` is modelled by appending
  the payload to a list of performed transport calls; whether the call
  succeeds or raises `TransportError` is an explicit `sendOk : Bool`
  parameter of each operation.
* `struct.pack_into("<Lhhhh", ...)` writes the bitfield as an unsigned 32-bit
  little-endian value and each joystick value as a signed 16-bit little-endian
  value; `u32_le` and `i16_le` below compute exactly those bytes for inputs in
  the ranges `struct` accepts (`0 ≤ buttons < 2^32`, `-32768 ≤ v ≤ 32767`).
-/

namespace UhidGamepad

/-- Exceptions thrown by the code: `ValueError` with its message (from the two
validators) and `TransportError` (from the transport's `send_input`). -/
inductive Err where
  | valueError : String → Err
  | transportError : Err
deriving Repr, DecidableEq

/-- Message of the `ValueError` in `Gamepad._validate_button_number`. -/
def buttonRangeMsg : String := "Button number must in range 1 to 32"

/-- Message of the `ValueError` in `Gamepad._validate_joystick_value`. -/
def joystickRangeMsg : String := "Joystick value must be in range -32767 to 32767"

/-- `Gamepad._validate_button_number`. -/
def validate_button_number (button : Int) : Except Err Int :=
  if ¬(1 ≤ button ∧ button ≤ 32) then .error (.valueError buttonRangeMsg)
  else .ok button

/-- `Gamepad._validate_joystick_value`. -/
def validate_joystick_value (value : Int) : Except Err Int :=
  if ¬(-32767 ≤ value ∧ value ≤ 32767) then .error (.valueError joystickRangeMsg)
  else .ok value

/-- The mutable fields of a `Gamepad` object. -/
structure Gamepad where
  report : List Nat
  last_report : List Nat
  buttons_state : Nat
  joy_x : Int
  joy_y : Int
  joy_z : Int
  joy_r_z : Int
  intitialized : Bool
  started : Bool
deriving Repr, DecidableEq

/-- The four bytes `struct.pack("<L", n)` produces for `0 ≤ n < 2^32`. -/
def u32_le (n : Nat) : List Nat :=
  [n % 256, n / 256 % 256, n / 65536 % 256, n / 16777216 % 256]

/-- The two bytes `struct.pack("<h", v)` produces for `-32768 ≤ v ≤ 32767`
(two's-complement, little-endian). -/
def i16_le (v : Int) : List Nat :=
  [(v % 65536).toNat % 256, (v % 65536).toNat / 256]

/-- The 12 bytes `struct.pack_into("<Lhhhh", report, 0, buttons, x, y, z, rz)`
stores into `self._report` in `Gamepad._send_report`. -/
def encode_report (g : Gamepad) : List Nat :=
  u32_le g.buttons_state ++ i16_le g.joy_x ++ i16_le g.joy_y ++
    i16_le g.joy_z ++ i16_le g.joy_r_z

/-- Modelled from the spec: the decoded view of a 12-byte report per the
documented layout (bytes 0-3 buttons u32 LE, then four i16 LE axes). -/
structure DecodedReport where
  buttons : Nat
  joy_x : Int
  joy_y : Int
  joy_z : Int
  joy_r_z : Int
deriving Repr, DecidableEq

/-- Modelled from the spec: little-endian unsigned 32-bit value of 4 bytes. -/
def decode_u32_le (b0 b1 b2 b3 : Nat) : Nat :=
  b0 + 256 * b1 + 65536 * b2 + 16777216 * b3

/-- Modelled from the spec: little-endian signed 16-bit value of 2 bytes. -/
def decode_i16_le (b0 b1 : Nat) : Int :=
  let u := b0 + 256 * b1
  if u < 32768 then (u : Int) else (u : Int) - 65536

/-- Modelled from the spec: decode a 12-byte report per the documented layout
(bytes 0-3 = buttons, 4-5 = joy_x, 6-7 = joy_y, 8-9 = joy_z, 10-11 = joy_r_z). -/
def decode_report (bs : List Nat) : DecodedReport where
  buttons := decode_u32_le (bs.getD 0 0) (bs.getD 1 0) (bs.getD 2 0) (bs.getD 3 0)
  joy_x := decode_i16_le (bs.getD 4 0) (bs.getD 5 0)
  joy_y := decode_i16_le (bs.getD 6 0) (bs.getD 7 0)
  joy_z := decode_i16_le (bs.getD 8 0) (bs.getD 9 0)
  joy_r_z := decode_i16_le (bs.getD 10 0) (bs.getD 11 0)

/-- Result of one (possibly failing) operation on a `Gamepad`: the object
after the call, the payloads of the transport `send_input` calls made (in
order, including a call that raised `TransportError`), and the exception that
propagated out of the call, if any. -/
structure OpResult where
  g : Gamepad
  sends : List (List Nat)
  err : Option Err
deriving Repr, DecidableEq

/-- `Gamepad._send_report(always)`. Returns immediately when `_started` is
false; otherwise packs the current state into `_report`, and if `always` or
`_last_report != _report`, calls the transport's `send_input` (whose outcome
is `sendOk`) and — only after that call returned — copies `_report` into
`_last_report`. -/
def Gamepad.send_report (g : Gamepad) (always : Bool) (sendOk : Bool) : OpResult :=
  if g.started = false then ⟨g, [], none⟩
  else
    let r := encode_report g
    let g1 := { g with report := r }
    if always = true ∨ g1.last_report ≠ r then
      if sendOk then ⟨{ g1 with last_report := r }, [r], none⟩
      else ⟨g1, [r], some .transportError⟩
    else ⟨g1, [], none⟩

/-- The mask `1 << (button - 1)` for a validated button number. -/
def button_mask (b : Int) : Nat := 1 <<< (b - 1).toNat

/-- `s & ~m` for non-negative Python ints: `~m` sets every bit outside `m`,
so and-ing clears exactly the bits of `m`; bitwise this is
`s AND (s XOR m)`, written with kernel-computable operations. It equals
`Nat.ldiff s m` (proved below). -/
def py_and_not (s m : Nat) : Nat := s &&& (s ^^^ m)

/-- `Gamepad.press_buttons(*buttons)`: for each button in order,
`self._buttons_state |= 1 << (validate(button) - 1)`; a validation failure
propagates at once (buttons already processed stay pressed); then
`self._send_report()`. -/
def Gamepad.press_buttons (g : Gamepad) (buttons : List Int) (sendOk : Bool) :
    OpResult :=
  match buttons with
  | [] => g.send_report false sendOk
  | b :: rest =>
    match validate_button_number b with
    | .error e => ⟨g, [], some e⟩
    | .ok b =>
      Gamepad.press_buttons
        { g with buttons_state := g.buttons_state ||| button_mask b } rest sendOk

/-- `Gamepad.release_buttons(*buttons)`: for each button in order,
`self._buttons_state &= ~(1 << (validate(button) - 1))`; for the non-negative
bitfield this is `Nat.ldiff` with the mask. Then `self._send_report()`. -/
def Gamepad.release_buttons (g : Gamepad) (buttons : List Int) (sendOk : Bool) :
    OpResult :=
  match buttons with
  | [] => g.send_report false sendOk
  | b :: rest =>
    match validate_button_number b with
    | .error e => ⟨g, [], some e⟩
    | .ok b =>
      Gamepad.release_buttons
        { g with buttons_state := py_and_not g.buttons_state (button_mask b) } rest sendOk

/-- `Gamepad.release_all_buttons()`. -/
def Gamepad.release_all_buttons (g : Gamepad) (sendOk : Bool) : OpResult :=
  ({ g with buttons_state := 0 }).send_report false sendOk

/-- `Gamepad.click_buttons(*buttons)`: `press_buttons` then (when that did not
raise) `release_buttons`, with the same buttons. -/
def Gamepad.click_buttons (g : Gamepad) (buttons : List Int)
    (sendOk1 sendOk2 : Bool) : OpResult :=
  let r1 := g.press_buttons buttons sendOk1
  match r1.err with
  | some _ => r1
  | none =>
    let r2 := r1.g.release_buttons buttons sendOk2
    ⟨r2.g, r1.sends ++ r2.sends, r2.err⟩

/-- One `if value is not None: field = validate(value)` block of
`Gamepad.move_joysticks`. -/
def axis_step (g : Gamepad) (value : Option Int) (set : Gamepad → Int → Gamepad) :
    Except Err Gamepad :=
  match value with
  | none => .ok g
  | some v =>
    match validate_joystick_value v with
    | .error e => .error e
    | .ok v => .ok (set g v)

/-- `Gamepad.move_joysticks(x, y, z, r_z)`: the four optional axes are
validated and assigned in order `x, y, z, r_z`; a validation failure
propagates at once (axes already assigned keep their new values); then
`self._send_report()`. -/
def Gamepad.move_joysticks (g : Gamepad) (x y z r_z : Option Int)
    (sendOk : Bool) : OpResult :=
  match axis_step g x (fun g v => { g with joy_x := v }) with
  | .error e => ⟨g, [], some e⟩
  | .ok g1 =>
    match axis_step g1 y (fun g v => { g with joy_y := v }) with
    | .error e => ⟨g1, [], some e⟩
    | .ok g2 =>
      match axis_step g2 z (fun g v => { g with joy_z := v }) with
      | .error e => ⟨g2, [], some e⟩
      | .ok g3 =>
        match axis_step g3 r_z (fun g v => { g with joy_r_z := v }) with
        | .error e => ⟨g3, [], some e⟩
        | .ok g4 => g4.send_report false sendOk

/-- `Gamepad.reset_all()`: zero the bitfield and all four axes, then
`self._send_report(always=True)`. -/
def Gamepad.reset_all (g : Gamepad) (sendOk : Bool) : OpResult :=
  Gamepad.send_report
    { g with buttons_state := 0, joy_x := 0, joy_y := 0, joy_z := 0, joy_r_z := 0 }
    true sendOk

/-- `Gamepad.__init__`: zeroed buffers and state; the `uhid.UHIDDevice`
constructor already registers (creates) the device, so `_intitialized` is set
to `True` and `_started` to `False`. The second component counts the
transport device-creation calls performed during construction (one: the one
inside `UHIDDevice.__init__`). -/
def Gamepad.init : Gamepad × Nat :=
  ({ report := List.replicate 12 0
     last_report := List.replicate 12 0
     buttons_state := 0
     joy_x := 0
     joy_y := 0
     joy_z := 0
     joy_r_z := 0
     intitialized := true
     started := false }, 1)

/-- `Gamepad.open()` run to completion (the await on
`wait_for_start_asyncio` resolved): re-creates the device only when
`_intitialized` is false, then waits for the start event and sets `_started`.
The second component counts the transport device-creation calls this call
performed. -/
def Gamepad.open_device (g : Gamepad) : Gamepad × Nat :=
  let p := if g.intitialized = false then ({ g with intitialized := true }, 1)
           else (g, 0)
  if p.1.started = false then ({ p.1 with started := true }, p.2) else p

/-- `Gamepad.close()`. -/
def Gamepad.close (g : Gamepad) : Gamepad :=
  if g.intitialized = true then { g with intitialized := false, started := false }
  else g

/-- One public operation of the class, with the outcome of each transport
send it may perform. -/
inductive Op where
  | openDev : Op
  | closeDev : Op
  | press : List Int → Bool → Op
  | release : List Int → Bool → Op
  | releaseAll : Bool → Op
  | click : List Int → Bool → Bool → Op
  | move : Option Int → Option Int → Option Int → Option Int → Bool → Op
  | reset : Bool → Op

/-- Apply one operation to the object (exceptions propagate to the caller but
leave the object as the operation left it). -/
def applyOp (g : Gamepad) : Op → Gamepad
  | .openDev => (g.open_device).1
  | .closeDev => g.close
  | .press bs ok => (g.press_buttons bs ok).g
  | .release bs ok => (g.release_buttons bs ok).g
  | .releaseAll ok => (g.release_all_buttons ok).g
  | .click bs ok1 ok2 => (g.click_buttons bs ok1 ok2).g
  | .move x y z rz ok => (g.move_joysticks x y z rz ok).g
  | .reset ok => (g.reset_all ok).g

/-- Run a sequence of operations. -/
def runOps (g : Gamepad) (ops : List Op) : Gamepad := ops.foldl applyOp g

/-- The data-model invariants: the bitfield fits 32 bits and every axis lies
in `[-32767, 32767]`. -/
def Inv (g : Gamepad) : Prop :=
  g.buttons_state < 2 ^ 32 ∧
  -32767 ≤ g.joy_x ∧ g.joy_x ≤ 32767 ∧
  -32767 ≤ g.joy_y ∧ g.joy_y ≤ 32767 ∧
  -32767 ≤ g.joy_z ∧ g.joy_z ≤ 32767 ∧
  -32767 ≤ g.joy_r_z ∧ g.joy_r_z ≤ 32767

instance (g : Gamepad) : Decidable (Inv g) := by unfold Inv; infer_instance

/-- A gamepad that has completed `open()` from a fresh construction:
initialized and started, all state zero. -/
def gStarted : Gamepad := (Gamepad.init.1.open_device).1

/-- `_buttons_state` after the loop of `press_buttons` over a button list. -/
def or_masks (s : Nat) (bs : List Int) : Nat :=
  bs.foldl (fun a b => a ||| button_mask b) s

/-- `_buttons_state` after the loop of `release_buttons` over a button list. -/
def ldiff_masks (s : Nat) (bs : List Int) : Nat :=
  bs.foldl (fun a b => py_and_not a (button_mask b)) s

/-- The test of `_validate_button_number`, as a Bool. -/
def valid_button (b : Int) : Bool := decide (1 ≤ b ∧ b ≤ 32)

/-- The test of `_validate_joystick_value`, applied to an optional argument of
`move_joysticks` (`none` passes: the axis is skipped). -/
def axis_ok (o : Option Int) : Bool :=
  match o with
  | none => true
  | some v => decide (-32767 ≤ v ∧ v ≤ 32767)

/-- What an axis of `move_joysticks` holds after its `if value is not None`
block ran without raising. -/
def upd_axis (old : Int) (o : Option Int) : Int :=
  match o with
  | none => old
  | some v => v

section Lemmas

lemma send_report_not_started (g : Gamepad) (a ok : Bool) (h : g.started = false) :
    g.send_report a ok = ⟨g, [], none⟩ := by
  unfold Gamepad.send_report
  simp [h]

lemma send_report_ok_started (g : Gamepad) (h : g.started = true) :
    g.send_report false true =
      ⟨{ g with report := encode_report g, last_report := encode_report g },
        if g.last_report = encode_report g then [] else [encode_report g], none⟩ := by
  unfold Gamepad.send_report
  by_cases hl : g.last_report = encode_report g <;> simp [h, hl]

lemma send_report_always_ok (g : Gamepad) (h : g.started = true) :
    g.send_report true true =
      ⟨{ g with report := encode_report g, last_report := encode_report g },
        [encode_report g], none⟩ := by
  unfold Gamepad.send_report
  simp [h]

lemma send_report_fail (g : Gamepad) (a : Bool) (h : g.started = true)
    (hatt : a = true ∨ g.last_report ≠ encode_report g) :
    g.send_report a false =
      ⟨{ g with report := encode_report g }, [encode_report g],
        some .transportError⟩ := by
  unfold Gamepad.send_report
  rcases hatt with ha | hne
  · cases ha; simp [h]
  · simp [h, hne]

lemma send_report_g_fields (g : Gamepad) (a ok : Bool) :
    (g.send_report a ok).g.buttons_state = g.buttons_state ∧
    (g.send_report a ok).g.joy_x = g.joy_x ∧
    (g.send_report a ok).g.joy_y = g.joy_y ∧
    (g.send_report a ok).g.joy_z = g.joy_z ∧
    (g.send_report a ok).g.joy_r_z = g.joy_r_z ∧
    (g.send_report a ok).g.started = g.started ∧
    (g.send_report a ok).g.intitialized = g.intitialized := by
  unfold Gamepad.send_report
  by_cases h1 : g.started = false <;> simp only [h1, if_true, if_false] <;>
    try simp
  by_cases h2 : a = true ∨ ¬ g.last_report = encode_report g <;>
    cases ok <;> simp [h2]

lemma press_buttons_eq (g : Gamepad) (bs : List Int) (ok : Bool) :
    g.press_buttons bs ok =
      if bs.all valid_button then
        Gamepad.send_report
          { g with buttons_state := or_masks g.buttons_state bs } false ok
      else
        ⟨{ g with buttons_state :=
            or_masks g.buttons_state (bs.takeWhile valid_button) },
          [], some (.valueError buttonRangeMsg)⟩ := by
  induction bs generalizing g with
  | nil =>
    show g.send_report false ok = _
    simp [or_masks]
  | cons b rest ih =>
    show (match validate_button_number b with
      | .error e => (⟨g, [], some e⟩ : OpResult)
      | .ok b => Gamepad.press_buttons
          { g with buttons_state := g.buttons_state ||| button_mask b } rest ok) = _
    unfold validate_button_number
    by_cases hv : 1 ≤ b ∧ b ≤ 32
    · simp only [hv, not_true_eq_false, if_false, ih]
      simp [valid_button, hv, List.all_cons, List.takeWhile, or_masks]
    · simp [hv, valid_button, List.all_cons, List.takeWhile, or_masks]

lemma release_buttons_eq (g : Gamepad) (bs : List Int) (ok : Bool) :
    g.release_buttons bs ok =
      if bs.all valid_button then
        Gamepad.send_report
          { g with buttons_state := ldiff_masks g.buttons_state bs } false ok
      else
        ⟨{ g with buttons_state :=
            ldiff_masks g.buttons_state (bs.takeWhile valid_button) },
          [], some (.valueError buttonRangeMsg)⟩ := by
  induction bs generalizing g with
  | nil =>
    show g.send_report false ok = _
    simp [ldiff_masks]
  | cons b rest ih =>
    show (match validate_button_number b with
      | .error e => (⟨g, [], some e⟩ : OpResult)
      | .ok b => Gamepad.release_buttons
          { g with buttons_state := py_and_not g.buttons_state (button_mask b) } rest ok) = _
    unfold validate_button_number
    by_cases hv : 1 ≤ b ∧ b ≤ 32
    · simp only [hv, not_true_eq_false, if_false, ih]
      simp [valid_button, hv, List.all_cons, List.takeWhile, ldiff_masks]
    · simp [hv, valid_button, List.all_cons, List.takeWhile, ldiff_masks]

lemma button_mask_eq (b : Int) : button_mask b = 2 ^ (b - 1).toNat := by
  unfold button_mask
  rw [Nat.shiftLeft_eq, one_mul]

lemma or_masks_lor (s : Nat) (bs : List Int) :
    or_masks s bs = s ||| or_masks 0 bs := by
  induction bs generalizing s with
  | nil => simp [or_masks]
  | cons b rest ih =>
    show or_masks (s ||| button_mask b) rest = s ||| or_masks (0 ||| button_mask b) rest
    rw [ih (s ||| button_mask b), ih (0 ||| button_mask b)]
    simp [Nat.lor_assoc]

lemma or_masks_idem (s : Nat) (bs : List Int) :
    or_masks (or_masks s bs) bs = or_masks s bs := by
  rw [or_masks_lor s bs, or_masks_lor (s ||| or_masks 0 bs) bs, Nat.lor_assoc]
  congr 1
  apply Nat.eq_of_testBit_eq
  intro i
  simp [Nat.testBit_lor]

lemma ldiff_ldiff (s m n : Nat) :
    Nat.ldiff (Nat.ldiff s m) n = Nat.ldiff s (m ||| n) := by
  apply Nat.eq_of_testBit_eq
  intro i
  simp [Nat.testBit_ldiff, Nat.testBit_lor, Bool.and_assoc]

lemma py_and_not_eq_ldiff (s m : Nat) : py_and_not s m = Nat.ldiff s m := by
  apply Nat.eq_of_testBit_eq
  intro i
  simp only [py_and_not, Nat.testBit_land, Nat.testBit_xor, Nat.testBit_ldiff]
  cases hs : s.testBit i <;> cases hm : m.testBit i <;> rfl

lemma ldiff_masks_ldiff (s : Nat) (bs : List Int) :
    ldiff_masks s bs = Nat.ldiff s (or_masks 0 bs) := by
  induction bs generalizing s with
  | nil =>
    show s = Nat.ldiff s 0
    apply Nat.eq_of_testBit_eq
    intro i
    simp [Nat.testBit_ldiff]
  | cons b rest ih =>
    show ldiff_masks (py_and_not s (button_mask b)) rest = Nat.ldiff s (or_masks (0 ||| button_mask b) rest)
    rw [ih, py_and_not_eq_ldiff, ldiff_ldiff, or_masks_lor (0 ||| button_mask b) rest]
    simp

lemma ldiff_masks_idem (s : Nat) (bs : List Int) :
    ldiff_masks (ldiff_masks s bs) bs = ldiff_masks s bs := by
  rw [ldiff_masks_ldiff, ldiff_masks_ldiff, ldiff_ldiff]
  congr 1
  apply Nat.eq_of_testBit_eq
  intro i
  simp [Nat.testBit_lor]

lemma ldiff_lor_cancel (s k : Nat) (h : s.testBit k = false) :
    Nat.ldiff (s ||| 2 ^ k) (2 ^ k) = s := by
  apply Nat.eq_of_testBit_eq
  intro i
  by_cases hik : k = i
  · subst hik
    simp [Nat.testBit_ldiff, Nat.testBit_lor, Nat.testBit_two_pow, h]
  · simp [Nat.testBit_ldiff, Nat.testBit_lor, Nat.testBit_two_pow, hik]

lemma u32_roundtrip (n : Nat) (h : n < 2 ^ 32) :
    decode_u32_le (n % 256) (n / 256 % 256) (n / 65536 % 256) (n / 16777216 % 256) = n := by
  unfold decode_u32_le
  omega

lemma i16_roundtrip (v : Int) (h1 : -32767 ≤ v) (h2 : v ≤ 32767) :
    decode_i16_le ((v % 65536).toNat % 256) ((v % 65536).toNat / 256) = v := by
  simp only [decode_i16_le]
  split_ifs <;> omega

lemma press_not_started (g : Gamepad) (bs : List Int) (ok : Bool)
    (h : g.started = false) :
    (g.press_buttons bs ok).sends = [] ∧
    (g.press_buttons bs ok).g.started = false := by
  rw [press_buttons_eq]
  by_cases hall : bs.all valid_button
  · simp only [hall, if_true]
    rw [send_report_not_started { g with buttons_state := or_masks g.buttons_state bs } false ok h]
    exact ⟨rfl, h⟩
  · simp [hall, h]

lemma release_not_started (g : Gamepad) (bs : List Int) (ok : Bool)
    (h : g.started = false) :
    (g.release_buttons bs ok).sends = [] ∧
    (g.release_buttons bs ok).g.started = false := by
  rw [release_buttons_eq]
  by_cases hall : bs.all valid_button
  · simp only [hall, if_true]
    rw [send_report_not_started { g with buttons_state := ldiff_masks g.buttons_state bs } false ok h]
    exact ⟨rfl, h⟩
  · simp [hall, h]

lemma click_not_started (g : Gamepad) (bs : List Int) (ok1 ok2 : Bool)
    (h : g.started = false) :
    (g.click_buttons bs ok1 ok2).sends = [] := by
  have hp := press_not_started g bs ok1 h
  have hr := release_not_started (g.press_buttons bs ok1).g bs ok2 hp.2
  unfold Gamepad.click_buttons
  cases herr : (g.press_buttons bs ok1).err <;> simp [herr, hp.1, hr.1]

lemma move_not_started (g : Gamepad) (x y z rz : Option Int) (ok : Bool)
    (h : g.started = false) :
    (g.move_joysticks x y z rz ok).sends = [] ∧
    (g.move_joysticks x y z rz ok).g.started = false := by
  unfold Gamepad.move_joysticks axis_step validate_joystick_value
  rcases x with _ | vx <;> rcases y with _ | vy <;> rcases z with _ | vz <;>
    rcases rz with _ | vrz <;>
    simp only [] <;> (try split_ifs) <;>
    simp_all [send_report_not_started]

lemma reset_not_started (g : Gamepad) (ok : Bool) (h : g.started = false) :
    (g.reset_all ok).sends = [] := by
  unfold Gamepad.reset_all
  rw [send_report_not_started { g with buttons_state := 0, joy_x := 0, joy_y := 0, joy_z := 0, joy_r_z := 0 } true ok h]

lemma axis_step_x (g : Gamepad) (o : Option Int) :
    axis_step g o (fun g v => { g with joy_x := v }) =
      if axis_ok o = true then .ok { g with joy_x := upd_axis g.joy_x o }
      else .error (.valueError joystickRangeMsg) := by
  cases o with
  | none => simp [axis_step, axis_ok, upd_axis]
  | some v =>
    simp only [axis_step, validate_joystick_value, axis_ok, upd_axis]
    by_cases h : -32767 ≤ v ∧ v ≤ 32767 <;> simp [h]

lemma axis_step_y (g : Gamepad) (o : Option Int) :
    axis_step g o (fun g v => { g with joy_y := v }) =
      if axis_ok o = true then .ok { g with joy_y := upd_axis g.joy_y o }
      else .error (.valueError joystickRangeMsg) := by
  cases o with
  | none => simp [axis_step, axis_ok, upd_axis]
  | some v =>
    simp only [axis_step, validate_joystick_value, axis_ok, upd_axis]
    by_cases h : -32767 ≤ v ∧ v ≤ 32767 <;> simp [h]

lemma axis_step_z (g : Gamepad) (o : Option Int) :
    axis_step g o (fun g v => { g with joy_z := v }) =
      if axis_ok o = true then .ok { g with joy_z := upd_axis g.joy_z o }
      else .error (.valueError joystickRangeMsg) := by
  cases o with
  | none => simp [axis_step, axis_ok, upd_axis]
  | some v =>
    simp only [axis_step, validate_joystick_value, axis_ok, upd_axis]
    by_cases h : -32767 ≤ v ∧ v ≤ 32767 <;> simp [h]

lemma axis_step_rz (g : Gamepad) (o : Option Int) :
    axis_step g o (fun g v => { g with joy_r_z := v }) =
      if axis_ok o = true then .ok { g with joy_r_z := upd_axis g.joy_r_z o }
      else .error (.valueError joystickRangeMsg) := by
  cases o with
  | none => simp [axis_step, axis_ok, upd_axis]
  | some v =>
    simp only [axis_step, validate_joystick_value, axis_ok, upd_axis]
    by_cases h : -32767 ≤ v ∧ v ≤ 32767 <;> simp [h]

lemma move_joysticks_eq (g : Gamepad) (x y z rz : Option Int) (ok : Bool) :
    g.move_joysticks x y z rz ok =
      if axis_ok x = false then ⟨g, [], some (.valueError joystickRangeMsg)⟩
      else if axis_ok y = false then
        ⟨{ g with joy_x := upd_axis g.joy_x x }, [], some (.valueError joystickRangeMsg)⟩
      else if axis_ok z = false then
        ⟨{ g with joy_x := upd_axis g.joy_x x, joy_y := upd_axis g.joy_y y }, [], some (.valueError joystickRangeMsg)⟩
      else if axis_ok rz = false then
        ⟨{ g with joy_x := upd_axis g.joy_x x, joy_y := upd_axis g.joy_y y, joy_z := upd_axis g.joy_z z }, [], some (.valueError joystickRangeMsg)⟩
      else
        Gamepad.send_report
          { g with joy_x := upd_axis g.joy_x x, joy_y := upd_axis g.joy_y y, joy_z := upd_axis g.joy_z z, joy_r_z := upd_axis g.joy_r_z rz }
          false ok := by
  simp only [Gamepad.move_joysticks, axis_step_x, axis_step_y, axis_step_z,
    axis_step_rz]
  cases hx : axis_ok x <;> cases hy : axis_ok y <;> cases hz : axis_ok z <;>
    cases hrz : axis_ok rz <;> simp [hx, hy, hz, hrz]

lemma upd_axis_idem (a : Int) (o : Option Int) :
    upd_axis (upd_axis a o) o = upd_axis a o := by
  cases o <;> rfl

lemma encode_congr (g g' : Gamepad)
    (h1 : g'.buttons_state = g.buttons_state) (h2 : g'.joy_x = g.joy_x)
    (h3 : g'.joy_y = g.joy_y) (h4 : g'.joy_z = g.joy_z)
    (h5 : g'.joy_r_z = g.joy_r_z) :
    encode_report g' = encode_report g := by
  unfold encode_report
  rw [h1, h2, h3, h4, h5]

lemma encode_zeroed (g : Gamepad) :
    encode_report { g with buttons_state := 0, joy_x := 0, joy_y := 0, joy_z := 0, joy_r_z := 0 } =
      List.replicate 12 0 := by
  norm_num [encode_report, u32_le, i16_le, List.replicate]

lemma reset_all_started (g : Gamepad) (h : g.started = true) :
    g.reset_all true =
      ⟨{ g with buttons_state := 0, joy_x := 0, joy_y := 0, joy_z := 0, joy_r_z := 0, report := List.replicate 12 0, last_report := List.replicate 12 0 },
        [List.replicate 12 0], none⟩ := by
  unfold Gamepad.reset_all
  rw [send_report_always_ok
    { g with buttons_state := 0, joy_x := 0, joy_y := 0, joy_z := 0, joy_r_z := 0 } h]
  simp [encode_zeroed]

end Lemmas

/-- C3 counterexample: with the device started and all state zero,
`press_buttons(1, 99)` raises the button-range `ValueError` but leaves bit 0
set (the bitfield is changed from 0 to 1, not left unchanged), and
`move_joysticks(x=100, y=40000)` raises the joystick-range `ValueError` but
leaves `joy_x = 100` (changed from 0): the batches are not all-or-nothing. -/
theorem batch_error_leaves_partial_state :
    ((gStarted.press_buttons [1, 99] true).err =
        some (Err.valueError buttonRangeMsg) ∧
      gStarted.buttons_state = 0 ∧
      (gStarted.press_buttons [1, 99] true).g.buttons_state = 1) ∧
    ((gStarted.move_joysticks (some 100) (some 40000) none none true).err =
        some (Err.valueError joystickRangeMsg) ∧
      gStarted.joy_x = 0 ∧
      (gStarted.move_joysticks (some 100) (some 40000) none none true).g.joy_x = 100) := by
  decide

/-- C3 amended: if `press_buttons` or `release_buttons` receives any button
number outside 1..32 it raises the `ValueError` and performs no transmission,
but the batch is applied up to the first invalid entry (the valid prefix of
the batch has already changed the bitfield); likewise, if `move_joysticks`
receives a provided axis value outside `[-32767, 32767]` it raises the
`ValueError` and performs no transmission, but the provided axes processed
before the first invalid one (in `x, y, z, r_z` order) have already been
assigned, while the invalid axis and all later ones are unchanged. -/
theorem invalid_batch_applies_prefix :
    (∀ (g : Gamepad) (bs : List Int) (ok : Bool), bs.all valid_button = false →
      (g.press_buttons bs ok).err = some (.valueError buttonRangeMsg) ∧
      (g.press_buttons bs ok).sends = [] ∧
      (g.press_buttons bs ok).g =
        { g with buttons_state := or_masks g.buttons_state (bs.takeWhile valid_button) }) ∧
    (∀ (g : Gamepad) (bs : List Int) (ok : Bool), bs.all valid_button = false →
      (g.release_buttons bs ok).err = some (.valueError buttonRangeMsg) ∧
      (g.release_buttons bs ok).sends = [] ∧
      (g.release_buttons bs ok).g =
        { g with buttons_state := ldiff_masks g.buttons_state (bs.takeWhile valid_button) }) ∧
    (∀ (g : Gamepad) (x y z rz : Option Int) (ok : Bool),
      (axis_ok x && axis_ok y && axis_ok z && axis_ok rz) = false →
      (g.move_joysticks x y z rz ok).err = some (.valueError joystickRangeMsg) ∧
      (g.move_joysticks x y z rz ok).sends = [] ∧
      (g.move_joysticks x y z rz ok).g.buttons_state = g.buttons_state ∧
      (g.move_joysticks x y z rz ok).g.report = g.report ∧
      (g.move_joysticks x y z rz ok).g.last_report = g.last_report ∧
      (g.move_joysticks x y z rz ok).g.joy_x =
        (if axis_ok x then upd_axis g.joy_x x else g.joy_x) ∧
      (g.move_joysticks x y z rz ok).g.joy_y =
        (if axis_ok x && axis_ok y then upd_axis g.joy_y y else g.joy_y) ∧
      (g.move_joysticks x y z rz ok).g.joy_z =
        (if axis_ok x && axis_ok y && axis_ok z then upd_axis g.joy_z z else g.joy_z) ∧
      (g.move_joysticks x y z rz ok).g.joy_r_z = g.joy_r_z) := by
  refine ⟨?_, ?_, ?_⟩
  · intro g bs ok hall
    rw [press_buttons_eq]
    simp [hall]
  · intro g bs ok hall
    rw [release_buttons_eq]
    simp [hall]
  · intro g x y z rz ok hfail
    rw [move_joysticks_eq]
    cases hx : axis_ok x with
    | false => simp [hx]
    | true =>
      cases hy : axis_ok y with
      | false => simp [hx, hy]
      | true =>
        cases hz : axis_ok z with
        | false => simp [hx, hy, hz]
        | true =>
          cases hrz : axis_ok rz with
          | false => simp [hx, hy, hz, hrz]
          | true => simp [hx, hy, hz, hrz] at hfail

/-- Witness for the amended C3 at concrete batches. -/
theorem invalid_batch_applies_prefix_witness :
    ((gStarted.press_buttons [1, 99] true).g =
      { gStarted with buttons_state := 1 }) ∧
    ((gStarted.move_joysticks (some 100) (some 40000) none none true).g.joy_x = 100) := by
  have h := invalid_batch_applies_prefix
  refine ⟨?_, ?_⟩
  · have h1 := (h.1 gStarted [1, 99] true (by decide)).2.2
    rw [h1]; decide
  · exact (h.2.2 gStarted (some 100) (some 40000) none none true (by decide)).2.2.2.2.2.1.trans
      (by decide)

/-- C4 counterexample: a freshly constructed `Gamepad` is already in the
`Initialized` state (`_intitialized = True`), construction itself performed
the one transport device-creation call, and the first `open()` performs zero
device-creation calls — contradicting the claim that a fresh controller is
`Uninitialized` and that the first `open()` creates the device. -/
theorem fresh_controller_already_initialized :
    Gamepad.init.1.intitialized = true ∧
    Gamepad.init.2 = 1 ∧
    (Gamepad.init.1.open_device).2 = 0 := by
  decide

/-- C4 amended: a freshly constructed controller is already `Initialized`
(but not `Started`): the device-creation call happens during construction
(inside the `uhid.UHIDDevice` constructor). The first `open()` therefore
performs no creation call and only completes the readiness handshake
(→ `Started`); only an `open()` after a `close()` re-creates the device. -/
theorem construction_creates_device :
    Gamepad.init.1.intitialized = true ∧
    Gamepad.init.1.started = false ∧
    Gamepad.init.2 = 1 ∧
    (Gamepad.init.1.open_device).2 = 0 ∧
    (Gamepad.init.1.open_device).1.started = true ∧
    (Gamepad.init.1.open_device).1.intitialized = true ∧
    (Gamepad.init.1.close).intitialized = false ∧
    ((Gamepad.init.1.close).open_device).2 = 1 ∧
    ((Gamepad.init.1.close).open_device).1.started = true := by
  decide

lemma update_buttons_self (g : Gamepad) (n : Nat) (h : g.buttons_state = n) :
    ({ g with buttons_state := n } : Gamepad) = g := by
  subst h
  rfl

lemma or_masks_single (s : Nat) (b : Int) : or_masks s [b] = s ||| button_mask b := rfl

lemma ldiff_masks_single (s : Nat) (b : Int) :
    ldiff_masks s [b] = Nat.ldiff s (button_mask b) := by
  show py_and_not s (button_mask b) = Nat.ldiff s (button_mask b)
  exact py_and_not_eq_ldiff s (button_mask b)

/-- C6: with the device `Started`, `reset_all` zeroes the bitfield and all
four axes and transmits the all-zero 12-byte report even though it may be
identical to the last-transmitted one; two consecutive `reset_all` calls
produce two `send_input` calls, each with the identical all-zero payload. -/
theorem reset_all_always_transmits (g : Gamepad) (h : g.started = true) :
    (g.reset_all true).g.buttons_state = 0 ∧
    (g.reset_all true).g.joy_x = 0 ∧
    (g.reset_all true).g.joy_y = 0 ∧
    (g.reset_all true).g.joy_z = 0 ∧
    (g.reset_all true).g.joy_r_z = 0 ∧
    (g.reset_all true).sends = [List.replicate 12 0] ∧
    ((g.reset_all true).g.reset_all true).sends = [List.replicate 12 0] := by
  rw [reset_all_started g h]
  refine ⟨rfl, rfl, rfl, rfl, rfl, rfl, ?_⟩
  rw [reset_all_started
    { g with buttons_state := 0, joy_x := 0, joy_y := 0, joy_z := 0, joy_r_z := 0, report := List.replicate 12 0, last_report := List.replicate 12 0 } h]

/-- Witness for C6 at the started all-zero state (where the forced resend is
a byte-for-byte duplicate). -/
theorem reset_all_always_transmits_witness :
    (gStarted.reset_all true).sends = [List.replicate 12 0] ∧
    ((gStarted.reset_all true).g.reset_all true).sends = [List.replicate 12 0] :=
  ⟨(reset_all_always_transmits gStarted rfl).2.2.2.2.2.1,
    (reset_all_always_transmits gStarted rfl).2.2.2.2.2.2⟩

/-- C8: if the transport's `send_input` raises `TransportError` during a
transmission attempt (device started, and the attempt actually fires because
the send is forced or the encoding differs from the snapshot), the exception
propagates with exactly one attempted transport call (no retry) and
`_last_report` still holds the previous known-good bytes, so the next
attempt compares against the report that was last successfully sent. -/
theorem failed_send_keeps_snapshot (g : Gamepad) (always : Bool)
    (hInv : Inv g) (hs : g.started = true)
    (hatt : always = true ∨ g.last_report ≠ encode_report g) :
    (g.send_report always false).err = some Err.transportError ∧
    (g.send_report always false).sends = [encode_report g] ∧
    (g.send_report always false).g.last_report = g.last_report := by
  rw [send_report_fail g always hs hatt]
  exact ⟨rfl, rfl, rfl⟩

/-- A started state whose pending encoding differs from the snapshot. -/
def failSample : Gamepad := { gStarted with buttons_state := 1 }

/-- Witness for C8 at a concrete state. -/
theorem failed_send_keeps_snapshot_witness :
    (failSample.send_report false false).err = some Err.transportError ∧
    (failSample.send_report false false).g.last_report = List.replicate 12 0 := by
  have h := failed_send_keeps_snapshot failSample false (by decide) rfl
    (Or.inr (by decide))
  exact ⟨h.1, h.2.2.trans (by decide)⟩

/-- A started state in which button 1 is already held. -/
def gHeld : Gamepad := (gStarted.press_buttons [1] true).g

/-- C7 counterexample: from a prior state in which button 1 is already
pressed, `press_buttons(1)` then `release_buttons(1)` does not restore the
pre-press state: the bitfield goes from 1 to 0 and the encoded report
changes. -/
theorem press_release_not_restore :
    gHeld.buttons_state = 1 ∧
    ((gHeld.press_buttons [1] true).g.release_buttons [1] true).g.buttons_state = 0 ∧
    encode_report ((gHeld.press_buttons [1] true).g.release_buttons [1] true).g ≠
      encode_report gHeld := by
  decide

/-- C7 amended: for every button number `b` in 1..32 and every prior state
satisfying the data-model invariants in which button `b` is NOT already
pressed, `press_buttons(b)` followed by `release_buttons(b)` restores the
pre-press button bitfield and all four axis values, hence the pre-press
encoded report, exactly (whatever the outcome of the two sends). -/
theorem press_release_restores (g : Gamepad) (b : Int) (ok1 ok2 : Bool)
    (hInv : Inv g) (hb1 : 1 ≤ b) (hb2 : b ≤ 32)
    (hfree : g.buttons_state.testBit (b - 1).toNat = false) :
    ((g.press_buttons [b] ok1).g.release_buttons [b] ok2).g.buttons_state = g.buttons_state ∧
    ((g.press_buttons [b] ok1).g.release_buttons [b] ok2).g.joy_x = g.joy_x ∧
    ((g.press_buttons [b] ok1).g.release_buttons [b] ok2).g.joy_y = g.joy_y ∧
    ((g.press_buttons [b] ok1).g.release_buttons [b] ok2).g.joy_z = g.joy_z ∧
    ((g.press_buttons [b] ok1).g.release_buttons [b] ok2).g.joy_r_z = g.joy_r_z ∧
    encode_report ((g.press_buttons [b] ok1).g.release_buttons [b] ok2).g =
      encode_report g := by
  have hvb : valid_button b = true := by
    simp only [valid_button, decide_eq_true_eq]
    exact ⟨hb1, hb2⟩
  have hallb : ([b] : List Int).all valid_button = true := by
    simp [List.all_cons, hvb]
  rw [press_buttons_eq g [b] ok1]
  simp only [hallb, if_true]
  have A := send_report_g_fields
    { g with buttons_state := or_masks g.buttons_state [b] } false ok1
  rw [release_buttons_eq _ [b] ok2]
  simp only [hallb, if_true]
  have B := send_report_g_fields
    { (Gamepad.send_report { g with buttons_state := or_masks g.buttons_state [b] } false ok1).g with
        buttons_state := ldiff_masks (Gamepad.send_report { g with buttons_state := or_masks g.buttons_state [b] } false ok1).g.buttons_state [b] }
    false ok2
  have hbtn :
      ldiff_masks (Gamepad.send_report { g with buttons_state := or_masks g.buttons_state [b] } false ok1).g.buttons_state [b] =
        g.buttons_state := by
    rw [ldiff_masks_single, A.1]
    show Nat.ldiff (or_masks g.buttons_state [b]) (button_mask b) = g.buttons_state
    rw [or_masks_single, button_mask_eq]
    exact ldiff_lor_cancel g.buttons_state ((b - 1).toNat) hfree
  refine ⟨?_, ?_, ?_, ?_, ?_, ?_⟩
  · rw [B.1]; exact hbtn
  · rw [B.2.1]; exact A.2.1
  · rw [B.2.2.1]; exact A.2.2.1
  · rw [B.2.2.2.1]; exact A.2.2.2.1
  · rw [B.2.2.2.2.1]; exact A.2.2.2.2.1
  · apply encode_congr
    · rw [B.1]; exact hbtn
    · rw [B.2.1]; exact A.2.1
    · rw [B.2.2.1]; exact A.2.2.1
    · rw [B.2.2.2.1]; exact A.2.2.2.1
    · rw [B.2.2.2.2.1]; exact A.2.2.2.2.1

/-- Witness for the amended C7: pressing and releasing button 2 from the
started all-zero state restores the all-zero encoding. -/
theorem press_release_restores_witness :
    ((gStarted.press_buttons [2] true).g.release_buttons [2] true).g.buttons_state =
      gStarted.buttons_state ∧
    encode_report ((gStarted.press_buttons [2] true).g.release_buttons [2] true).g =
      encode_report gStarted := by
  have h := press_release_restores gStarted 2 true true (by decide) (by decide)
    (by decide) (by decide)
  exact ⟨h.1, h.2.2.2.2.2⟩

lemma send_sync_last (g : Gamepad) (h : g.started = true) :
    (g.send_report false true).g.last_report =
      encode_report (g.send_report false true).g ∧
    (g.send_report false true).g.started = true ∧
    (g.send_report false true).sends.length ≤ 1 := by
  rw [send_report_ok_started g h]
  refine ⟨rfl, h, ?_⟩
  split <;> simp

lemma send_dedup_eq (g : Gamepad) (h : g.started = true)
    (hl : g.last_report = encode_report g) :
    (g.send_report false true).sends = [] := by
  rw [send_report_ok_started g h]
  simp [hl]

lemma press_twice_no_send (g : Gamepad) (bs : List Int) (h : g.started = true) :
    ((g.press_buttons bs true).g.press_buttons bs true).sends = [] ∧
    (g.press_buttons bs true).sends.length ≤ 1 := by
  cases hall : bs.all valid_button with
  | false =>
    rw [press_buttons_eq g bs true]
    simp only [hall, Bool.false_eq_true, if_false]
    constructor
    · rw [press_buttons_eq _ bs true]
      simp [hall]
    · simp
  | true =>
    rw [press_buttons_eq g bs true]
    simp only [hall, if_true]
    have hsync := send_sync_last
      { g with buttons_state := or_masks g.buttons_state bs } h
    refine ⟨?_, hsync.2.2⟩
    rw [press_buttons_eq _ bs true]
    simp only [hall, if_true]
    have hfix := (send_report_g_fields
      { g with buttons_state := or_masks g.buttons_state bs } false true).1
    have hbtn : or_masks
        (Gamepad.send_report { g with buttons_state := or_masks g.buttons_state bs } false true).g.buttons_state bs =
        (Gamepad.send_report { g with buttons_state := or_masks g.buttons_state bs } false true).g.buttons_state := by
      rw [hfix]
      exact or_masks_idem g.buttons_state bs
    rw [update_buttons_self _ _ hbtn.symm]
    exact send_dedup_eq _ hsync.2.1 hsync.1

lemma release_twice_no_send (g : Gamepad) (bs : List Int) (h : g.started = true) :
    ((g.release_buttons bs true).g.release_buttons bs true).sends = [] ∧
    (g.release_buttons bs true).sends.length ≤ 1 := by
  cases hall : bs.all valid_button with
  | false =>
    rw [release_buttons_eq g bs true]
    simp only [hall, Bool.false_eq_true, if_false]
    constructor
    · rw [release_buttons_eq _ bs true]
      simp [hall]
    · simp
  | true =>
    rw [release_buttons_eq g bs true]
    simp only [hall, if_true]
    have hsync := send_sync_last
      { g with buttons_state := ldiff_masks g.buttons_state bs } h
    refine ⟨?_, hsync.2.2⟩
    rw [release_buttons_eq _ bs true]
    simp only [hall, if_true]
    have hfix := (send_report_g_fields
      { g with buttons_state := ldiff_masks g.buttons_state bs } false true).1
    have hbtn : ldiff_masks
        (Gamepad.send_report { g with buttons_state := ldiff_masks g.buttons_state bs } false true).g.buttons_state bs =
        (Gamepad.send_report { g with buttons_state := ldiff_masks g.buttons_state bs } false true).g.buttons_state := by
      rw [hfix]
      exact ldiff_masks_idem g.buttons_state bs
    rw [update_buttons_self _ _ hbtn.symm]
    exact send_dedup_eq _ hsync.2.1 hsync.1

lemma releaseAll_twice_no_send (g : Gamepad) (h : g.started = true) :
    ((g.release_all_buttons true).g.release_all_buttons true).sends = [] ∧
    (g.release_all_buttons true).sends.length ≤ 1 := by
  unfold Gamepad.release_all_buttons
  have hsync := send_sync_last { g with buttons_state := 0 } h
  refine ⟨?_, hsync.2.2⟩
  have h0 : (Gamepad.send_report { g with buttons_state := 0 } false true).g.buttons_state = 0 :=
    (send_report_g_fields { g with buttons_state := 0 } false true).1
  rw [update_buttons_self _ _ h0]
  exact send_dedup_eq _ hsync.2.1 hsync.1

lemma update_joys_self (g : Gamepad) (a b c d : Int) (ha : g.joy_x = a)
    (hb : g.joy_y = b) (hc : g.joy_z = c) (hd : g.joy_r_z = d) :
    ({ g with joy_x := a, joy_y := b, joy_z := c, joy_r_z := d } : Gamepad) = g := by
  subst ha hb hc hd
  rfl

lemma move_twice_no_send (g : Gamepad) (x y z rz : Option Int)
    (h : g.started = true) :
    ((g.move_joysticks x y z rz true).g.move_joysticks x y z rz true).sends = [] ∧
    (g.move_joysticks x y z rz true).sends.length ≤ 1 := by
  rw [move_joysticks_eq g x y z rz true]
  cases hx : axis_ok x with
  | false =>
    simp only [hx, if_true]
    constructor
    · rw [move_joysticks_eq _ x y z rz true]
      simp [hx]
    · simp
  | true =>
  cases hy : axis_ok y with
  | false =>
    simp only [hx, hy, Bool.true_eq_false, if_false, if_true]
    constructor
    · rw [move_joysticks_eq _ x y z rz true]
      simp [hx, hy]
    · simp
  | true =>
  cases hz : axis_ok z with
  | false =>
    simp only [hx, hy, hz, Bool.true_eq_false, if_false, if_true]
    constructor
    · rw [move_joysticks_eq _ x y z rz true]
      simp [hx, hy, hz]
    · simp
  | true =>
  cases hrz : axis_ok rz with
  | false =>
    simp only [hx, hy, hz, hrz, Bool.true_eq_false, if_false, if_true]
    constructor
    · rw [move_joysticks_eq _ x y z rz true]
      simp [hx, hy, hz, hrz]
    · simp
  | true =>
    simp only [hx, hy, hz, hrz, Bool.true_eq_false, if_false]
    have hsync := send_sync_last
      { g with joy_x := upd_axis g.joy_x x, joy_y := upd_axis g.joy_y y, joy_z := upd_axis g.joy_z z, joy_r_z := upd_axis g.joy_r_z rz } h
    refine ⟨?_, hsync.2.2⟩
    rw [move_joysticks_eq _ x y z rz true]
    simp only [hx, hy, hz, hrz, Bool.true_eq_false, if_false]
    have hflds := send_report_g_fields
      { g with joy_x := upd_axis g.joy_x x, joy_y := upd_axis g.joy_y y, joy_z := upd_axis g.joy_z z, joy_r_z := upd_axis g.joy_r_z rz } false true
    rw [update_joys_self _ _ _ _ _
      (by rw [hflds.2.1]; exact (upd_axis_idem g.joy_x x).symm)
      (by rw [hflds.2.2.1]; exact (upd_axis_idem g.joy_y y).symm)
      (by rw [hflds.2.2.2.1]; exact (upd_axis_idem g.joy_z z).symm)
      (by rw [hflds.2.2.2.2.1]; exact (upd_axis_idem g.joy_r_z rz).symm)]
    exact send_dedup_eq _ hsync.2.1 hsync.1

/-- C5 counterexample: `click_buttons` is a state-mutating operation other
than `reset_all`, yet calling it twice in a row with identical arguments on a
started device transmits two frames each time (four in total, the second call
suppressed nothing), not exactly one. -/
theorem click_twice_transmits_again :
    (gStarted.click_buttons [1] true true).sends.length = 2 ∧
    ((gStarted.click_buttons [1] true true).g.click_buttons [1] true true).sends.length = 2 := by
  decide

/-- C5 amended: for the single-transmission mutating operations
(`press_buttons`, `release_buttons`, `release_all_buttons`,
`move_joysticks`) on a started device satisfying the data-model invariants,
the second of two consecutive calls with identical arguments performs zero
transport calls (its encoding equals the last-transmitted snapshot), so the
pair transmits at most one frame — exactly one when the first call actually
transmitted, zero when the first call was itself redundant. `click_buttons`
is excluded: it is press-then-release, two transmissions each time, so
repeating it transmits again. -/
theorem second_identical_call_suppressed (g : Gamepad) (hInv : Inv g)
    (h : g.started = true) :
    (∀ bs, ((g.press_buttons bs true).g.press_buttons bs true).sends = [] ∧
      (g.press_buttons bs true).sends.length ≤ 1) ∧
    (∀ bs, ((g.release_buttons bs true).g.release_buttons bs true).sends = [] ∧
      (g.release_buttons bs true).sends.length ≤ 1) ∧
    (((g.release_all_buttons true).g.release_all_buttons true).sends = [] ∧
      (g.release_all_buttons true).sends.length ≤ 1) ∧
    (∀ x y z rz,
      ((g.move_joysticks x y z rz true).g.move_joysticks x y z rz true).sends = [] ∧
      (g.move_joysticks x y z rz true).sends.length ≤ 1) :=
  ⟨fun bs => press_twice_no_send g bs h,
    fun bs => release_twice_no_send g bs h,
    releaseAll_twice_no_send g h,
    fun x y z rz => move_twice_no_send g x y z rz h⟩

/-- Witness for the amended C5: repeating `press_buttons(1)` and repeating
`move_joysticks(x=5)` on the started all-zero state sends nothing the second
time. -/
theorem second_identical_call_suppressed_witness :
    ((gStarted.press_buttons [1] true).g.press_buttons [1] true).sends = [] ∧
    ((gStarted.move_joysticks (some 5) none none none true).g.move_joysticks
      (some 5) none none none true).sends = [] :=
  ⟨((second_identical_call_suppressed gStarted (by decide) rfl).1 [1]).1,
    ((second_identical_call_suppressed gStarted (by decide) rfl).2.2.2
      (some 5) none none none).1⟩

lemma valid_button_bounds (b : Int) (h : valid_button b = true) :
    1 ≤ b ∧ b ≤ 32 := by
  simpa [valid_button] using h

lemma button_mask_lt (b : Int) (h : valid_button b = true) :
    button_mask b < 2 ^ 32 := by
  obtain ⟨h1, h2⟩ := valid_button_bounds b h
  rw [button_mask_eq]
  have hk : (b - 1).toNat ≤ 31 := by omega
  calc 2 ^ (b - 1).toNat ≤ 2 ^ 31 := Nat.pow_le_pow_right (by norm_num) hk
    _ < 2 ^ 32 := by norm_num

lemma lor_lt_32 (x y : Nat) (hx : x < 2 ^ 32) (hy : y < 2 ^ 32) :
    x ||| y < 2 ^ 32 :=
  Nat.bitwise_lt hx hy

lemma ldiff_lt_32 (s m : Nat) (hs : s < 2 ^ 32) (hm : m < 2 ^ 32) :
    Nat.ldiff s m < 2 ^ 32 :=
  Nat.bitwise_lt hs hm

lemma or_masks_lt (s : Nat) (bs : List Int) (hs : s < 2 ^ 32)
    (hb : ∀ b ∈ bs, valid_button b = true) : or_masks s bs < 2 ^ 32 := by
  induction bs generalizing s with
  | nil => exact hs
  | cons b rest ih =>
    show or_masks (s ||| button_mask b) rest < 2 ^ 32
    exact ih (s ||| button_mask b)
      (lor_lt_32 _ _ hs (button_mask_lt b (hb b (by simp))))
      (fun c hc => hb c (by simp [hc]))

lemma ldiff_masks_lt (s : Nat) (bs : List Int) (hs : s < 2 ^ 32)
    (hb : ∀ b ∈ bs, valid_button b = true) : ldiff_masks s bs < 2 ^ 32 := by
  rw [ldiff_masks_ldiff]
  exact ldiff_lt_32 _ _ hs (or_masks_lt 0 bs (by norm_num) hb)

lemma press_inv (g : Gamepad) (hInv : Inv g) (bs : List Int) (ok : Bool) :
    Inv (g.press_buttons bs ok).g := by
  rw [press_buttons_eq]
  cases hall : bs.all valid_button with
  | true =>
    simp only [hall, if_true]
    have f := send_report_g_fields
      { g with buttons_state := or_masks g.buttons_state bs } false ok
    unfold Inv
    rw [f.1, f.2.1, f.2.2.1, f.2.2.2.1, f.2.2.2.2.1]
    exact ⟨or_masks_lt _ _ hInv.1 (List.all_eq_true.mp hall), hInv.2⟩
  | false =>
    simp only [hall, Bool.false_eq_true, if_false]
    exact ⟨or_masks_lt _ _ hInv.1
      (fun c hc => List.mem_takeWhile_imp hc), hInv.2⟩

lemma release_inv (g : Gamepad) (hInv : Inv g) (bs : List Int) (ok : Bool) :
    Inv (g.release_buttons bs ok).g := by
  rw [release_buttons_eq]
  cases hall : bs.all valid_button with
  | true =>
    simp only [hall, if_true]
    have f := send_report_g_fields
      { g with buttons_state := ldiff_masks g.buttons_state bs } false ok
    unfold Inv
    rw [f.1, f.2.1, f.2.2.1, f.2.2.2.1, f.2.2.2.2.1]
    exact ⟨ldiff_masks_lt _ _ hInv.1 (List.all_eq_true.mp hall), hInv.2⟩
  | false =>
    simp only [hall, Bool.false_eq_true, if_false]
    exact ⟨ldiff_masks_lt _ _ hInv.1
      (fun c hc => List.mem_takeWhile_imp hc), hInv.2⟩

lemma releaseAll_inv (g : Gamepad) (hInv : Inv g) (ok : Bool) :
    Inv (g.release_all_buttons ok).g := by
  unfold Gamepad.release_all_buttons
  have f := send_report_g_fields { g with buttons_state := 0 } false ok
  unfold Inv
  rw [f.1, f.2.1, f.2.2.1, f.2.2.2.1, f.2.2.2.2.1]
  exact ⟨by norm_num, hInv.2⟩

lemma click_inv (g : Gamepad) (hInv : Inv g) (bs : List Int) (ok1 ok2 : Bool) :
    Inv (g.click_buttons bs ok1 ok2).g := by
  unfold Gamepad.click_buttons
  cases herr : (g.press_buttons bs ok1).err <;> simp only [herr]
  · exact release_inv _ (press_inv g hInv bs ok1) bs ok2
  · exact press_inv g hInv bs ok1

lemma upd_axis_bounds (a : Int) (o : Option Int) (h1 : -32767 ≤ a)
    (h2 : a ≤ 32767) (ho : axis_ok o = true) :
    -32767 ≤ upd_axis a o ∧ upd_axis a o ≤ 32767 := by
  cases o with
  | none => exact ⟨h1, h2⟩
  | some v =>
    simp only [axis_ok, decide_eq_true_eq] at ho
    exact ho

lemma move_inv (g : Gamepad) (hInv : Inv g) (x y z rz : Option Int) (ok : Bool) :
    Inv (g.move_joysticks x y z rz ok).g := by
  obtain ⟨hbb, hx1, hx2, hy1, hy2, hz1, hz2, hr1, hr2⟩ := hInv
  rw [move_joysticks_eq]
  cases hx : axis_ok x with
  | false => exact ⟨hbb, hx1, hx2, hy1, hy2, hz1, hz2, hr1, hr2⟩
  | true =>
  have bx := upd_axis_bounds g.joy_x x hx1 hx2 hx
  cases hy : axis_ok y with
  | false =>
    simp only [hx, hy, Bool.true_eq_false, if_false, if_true]
    exact ⟨hbb, bx.1, bx.2, hy1, hy2, hz1, hz2, hr1, hr2⟩
  | true =>
  have by2 := upd_axis_bounds g.joy_y y hy1 hy2 hy
  cases hz : axis_ok z with
  | false =>
    simp only [hx, hy, hz, Bool.true_eq_false, if_false, if_true]
    exact ⟨hbb, bx.1, bx.2, by2.1, by2.2, hz1, hz2, hr1, hr2⟩
  | true =>
  have bz := upd_axis_bounds g.joy_z z hz1 hz2 hz
  cases hrz : axis_ok rz with
  | false =>
    simp only [hx, hy, hz, hrz, Bool.true_eq_false, if_false, if_true]
    exact ⟨hbb, bx.1, bx.2, by2.1, by2.2, bz.1, bz.2, hr1, hr2⟩
  | true =>
    simp only [hx, hy, hz, hrz, Bool.true_eq_false, if_false]
    have br := upd_axis_bounds g.joy_r_z rz hr1 hr2 hrz
    have f := send_report_g_fields
      { g with joy_x := upd_axis g.joy_x x, joy_y := upd_axis g.joy_y y, joy_z := upd_axis g.joy_z z, joy_r_z := upd_axis g.joy_r_z rz } false ok
    unfold Inv
    rw [f.1, f.2.1, f.2.2.1, f.2.2.2.1, f.2.2.2.2.1]
    exact ⟨hbb, bx.1, bx.2, by2.1, by2.2, bz.1, bz.2, br.1, br.2⟩

lemma reset_inv (g : Gamepad) (ok : Bool) : Inv (g.reset_all ok).g := by
  unfold Gamepad.reset_all
  have f := send_report_g_fields
    { g with buttons_state := 0, joy_x := 0, joy_y := 0, joy_z := 0, joy_r_z := 0 } true ok
  unfold Inv
  rw [f.1, f.2.1, f.2.2.1, f.2.2.2.1, f.2.2.2.2.1]
  norm_num

/-- C9: every public state-mutating operation — `press_buttons`,
`release_buttons`, `release_all_buttons`, `click_buttons`, `move_joysticks`,
`reset_all` — whether it completes normally or raises a validation error,
preserves the data-model invariants: the bitfield keeps all set bits in
positions 0-31 (it fits an unsigned 32-bit value) and every axis stays in
`[-32767, 32767]` (so `-32768` never occurs). -/
theorem operations_preserve_invariants (g : Gamepad) (hInv : Inv g) :
    (∀ bs ok, Inv (g.press_buttons bs ok).g) ∧
    (∀ bs ok, Inv (g.release_buttons bs ok).g) ∧
    (∀ ok, Inv (g.release_all_buttons ok).g) ∧
    (∀ bs ok1 ok2, Inv (g.click_buttons bs ok1 ok2).g) ∧
    (∀ x y z rz ok, Inv (g.move_joysticks x y z rz ok).g) ∧
    (∀ ok, Inv (g.reset_all ok).g) :=
  ⟨fun bs ok => press_inv g hInv bs ok,
    fun bs ok => release_inv g hInv bs ok,
    fun ok => releaseAll_inv g hInv ok,
    fun bs ok1 ok2 => click_inv g hInv bs ok1 ok2,
    fun x y z rz ok => move_inv g hInv x y z rz ok,
    fun ok => reset_inv g ok⟩

/-- Witness for C9: the invariants hold after a press (including an invalid
batch that raises) and after a joystick move on the started all-zero state. -/
theorem operations_preserve_invariants_witness :
    Inv (gStarted.press_buttons [1, 99] true).g ∧
    Inv (gStarted.move_joysticks (some 32767) (some (-32767)) none none true).g :=
  ⟨(operations_preserve_invariants gStarted (by decide)).1 [1, 99] true,
    (operations_preserve_invariants gStarted (by decide)).2.2.2.2.1
      (some 32767) (some (-32767)) none none true⟩

lemma press_flags (g : Gamepad) (bs : List Int) (ok : Bool) :
    (g.press_buttons bs ok).g.started = g.started ∧
    (g.press_buttons bs ok).g.intitialized = g.intitialized := by
  rw [press_buttons_eq]
  cases hall : bs.all valid_button with
  | true =>
    simp only [hall, if_true]
    have f := send_report_g_fields
      { g with buttons_state := or_masks g.buttons_state bs } false ok
    exact ⟨f.2.2.2.2.2.1, f.2.2.2.2.2.2⟩
  | false =>
    simp only [hall, Bool.false_eq_true, if_false]
    exact ⟨by simp, by simp⟩

lemma release_flags (g : Gamepad) (bs : List Int) (ok : Bool) :
    (g.release_buttons bs ok).g.started = g.started ∧
    (g.release_buttons bs ok).g.intitialized = g.intitialized := by
  rw [release_buttons_eq]
  cases hall : bs.all valid_button with
  | true =>
    simp only [hall, if_true]
    have f := send_report_g_fields
      { g with buttons_state := ldiff_masks g.buttons_state bs } false ok
    exact ⟨f.2.2.2.2.2.1, f.2.2.2.2.2.2⟩
  | false =>
    simp only [hall, Bool.false_eq_true, if_false]
    exact ⟨by simp, by simp⟩

lemma releaseAll_flags (g : Gamepad) (ok : Bool) :
    (g.release_all_buttons ok).g.started = g.started ∧
    (g.release_all_buttons ok).g.intitialized = g.intitialized := by
  unfold Gamepad.release_all_buttons
  have f := send_report_g_fields { g with buttons_state := 0 } false ok
  exact ⟨f.2.2.2.2.2.1, f.2.2.2.2.2.2⟩

lemma click_flags (g : Gamepad) (bs : List Int) (ok1 ok2 : Bool) :
    (g.click_buttons bs ok1 ok2).g.started = g.started ∧
    (g.click_buttons bs ok1 ok2).g.intitialized = g.intitialized := by
  unfold Gamepad.click_buttons
  cases herr : (g.press_buttons bs ok1).err <;> simp only [herr]
  · exact ⟨(release_flags _ bs ok2).1.trans (press_flags g bs ok1).1,
      (release_flags _ bs ok2).2.trans (press_flags g bs ok1).2⟩
  · exact press_flags g bs ok1

lemma move_flags (g : Gamepad) (x y z rz : Option Int) (ok : Bool) :
    (g.move_joysticks x y z rz ok).g.started = g.started ∧
    (g.move_joysticks x y z rz ok).g.intitialized = g.intitialized := by
  rw [move_joysticks_eq]
  cases hx : axis_ok x with
  | false => exact ⟨by simp, by simp⟩
  | true =>
  cases hy : axis_ok y with
  | false =>
    simp only [hx, hy, Bool.true_eq_false, if_false, if_true]
    exact ⟨by simp, by simp⟩
  | true =>
  cases hz : axis_ok z with
  | false =>
    simp only [hx, hy, hz, Bool.true_eq_false, if_false, if_true]
    exact ⟨by simp, by simp⟩
  | true =>
  cases hrz : axis_ok rz with
  | false =>
    simp only [hx, hy, hz, hrz, Bool.true_eq_false, if_false, if_true]
    exact ⟨by simp, by simp⟩
  | true =>
    simp only [hx, hy, hz, hrz, Bool.true_eq_false, if_false]
    have f := send_report_g_fields
      { g with joy_x := upd_axis g.joy_x x, joy_y := upd_axis g.joy_y y, joy_z := upd_axis g.joy_z z, joy_r_z := upd_axis g.joy_r_z rz } false ok
    exact ⟨f.2.2.2.2.2.1, f.2.2.2.2.2.2⟩

lemma reset_flags (g : Gamepad) (ok : Bool) :
    (g.reset_all ok).g.started = g.started ∧
    (g.reset_all ok).g.intitialized = g.intitialized := by
  unfold Gamepad.reset_all
  have f := send_report_g_fields
    { g with buttons_state := 0, joy_x := 0, joy_y := 0, joy_z := 0, joy_r_z := 0 } true ok
  exact ⟨f.2.2.2.2.2.1, f.2.2.2.2.2.2⟩

lemma open_device_initialized (g : Gamepad) :
    (g.open_device).1.intitialized = true := by
  unfold Gamepad.open_device
  cases hi : g.intitialized <;> simp [hi] <;> split_ifs <;> simp [hi]

lemma applyOp_preserves_started_imp (g : Gamepad) (op : Op)
    (hP : g.started = true → g.intitialized = true) :
    (applyOp g op).started = true → (applyOp g op).intitialized = true := by
  cases op with
  | openDev => exact fun _ => open_device_initialized g
  | closeDev =>
    unfold applyOp Gamepad.close
    split_ifs
    · intro hs; cases hs
    · exact hP
  | press bs ok =>
    simp only [applyOp]
    intro hs
    have f := press_flags g bs ok
    rw [f.2]
    exact hP (f.1.symm.trans hs)
  | release bs ok =>
    simp only [applyOp]
    intro hs
    have f := release_flags g bs ok
    rw [f.2]
    exact hP (f.1.symm.trans hs)
  | releaseAll ok =>
    simp only [applyOp]
    intro hs
    have f := releaseAll_flags g ok
    rw [f.2]
    exact hP (f.1.symm.trans hs)
  | click bs ok1 ok2 =>
    simp only [applyOp]
    intro hs
    have f := click_flags g bs ok1 ok2
    rw [f.2]
    exact hP (f.1.symm.trans hs)
  | move x y z rz ok =>
    simp only [applyOp]
    intro hs
    have f := move_flags g x y z rz ok
    rw [f.2]
    exact hP (f.1.symm.trans hs)
  | reset ok =>
    simp only [applyOp]
    intro hs
    have f := reset_flags g ok
    rw [f.2]
    exact hP (f.1.symm.trans hs)

/-- C10: in every state reachable from a fresh construction by any sequence
of `open`, `close` and state-mutating operations, `_started = True` implies
`_intitialized = True`: the lifecycle never permits transmission on a device
that has not been created, so `send_input` only ever runs on an initialized
device handle. -/
theorem started_implies_initialized (ops : List Op) :
    (runOps Gamepad.init.1 ops).started = true →
    (runOps Gamepad.init.1 ops).intitialized = true := by
  suffices H : ∀ (l : List Op) (g : Gamepad),
      (g.started = true → g.intitialized = true) →
      ((runOps g l).started = true → (runOps g l).intitialized = true) from
    H ops Gamepad.init.1 (fun _ => rfl)
  intro l
  induction l with
  | nil => exact fun g hP => hP
  | cons op rest ih =>
    exact fun g hP => ih (applyOp g op) (applyOp_preserves_started_imp g op hP)

/-- Witness for C10: after construction followed by `open()`, the device is
both started and initialized. -/
theorem started_implies_initialized_witness :
    (runOps Gamepad.init.1 [Op.openDev]).intitialized = true :=
  started_implies_initialized [Op.openDev] (by decide)

/-- C1: for every logical gamepad state satisfying the data-model invariants
(`buttons < 2^32`, each axis in `[-32767, 32767]`), the report packed by the
transmission path (`struct.pack_into("<Lhhhh", ...)` in `_send_report`) is
exactly 12 bytes, and decoding those bytes per the documented little-endian
layout (bytes 0-3 buttons u32, 4-5 joy_x, 6-7 joy_y, 8-9 joy_z, 10-11
joy_r_z, each axis signed 16-bit) reproduces the original button bitfield and
all four axis values exactly. -/
theorem report_roundtrip (g : Gamepad)
    (hb : g.buttons_state < 2 ^ 32)
    (hx1 : -32767 ≤ g.joy_x) (hx2 : g.joy_x ≤ 32767)
    (hy1 : -32767 ≤ g.joy_y) (hy2 : g.joy_y ≤ 32767)
    (hz1 : -32767 ≤ g.joy_z) (hz2 : g.joy_z ≤ 32767)
    (hr1 : -32767 ≤ g.joy_r_z) (hr2 : g.joy_r_z ≤ 32767) :
    (encode_report g).length = 12 ∧
    decode_report (encode_report g) =
      ⟨g.buttons_state, g.joy_x, g.joy_y, g.joy_z, g.joy_r_z⟩ := by
  constructor
  · simp [encode_report, u32_le, i16_le]
  · unfold encode_report u32_le i16_le decode_report
    simp only [List.cons_append, List.nil_append, List.getD_cons_zero,
      List.getD_cons_succ, DecodedReport.mk.injEq]
    exact ⟨u32_roundtrip _ hb, i16_roundtrip _ hx1 hx2, i16_roundtrip _ hy1 hy2,
      i16_roundtrip _ hz1 hz2, i16_roundtrip _ hr1 hr2⟩

/-- A concrete state used to instantiate universally quantified theorems. -/
def roundtripSample : Gamepad := { gStarted with buttons_state := 3735928559, joy_x := -32767, joy_y := 32767, joy_z := -1, joy_r_z := 256 }

/-- Witness for C1 at a concrete state. -/
theorem report_roundtrip_witness :
    (encode_report roundtripSample).length = 12 ∧
    decode_report (encode_report roundtripSample) =
      ⟨3735928559, -32767, 32767, -1, 256⟩ :=
  report_roundtrip roundtripSample (by decide) (by decide) (by decide) (by decide)
    (by decide) (by decide) (by decide) (by decide) (by decide)

/-- C2: while the device lifecycle is not `Started` (`_started` false, which
covers both the uninitialized and the merely initialized states), every
state-mutating operation — `press_buttons`, `release_buttons`,
`release_all_buttons`, `click_buttons`, `move_joysticks`, and also the forced
`reset_all` — performs zero calls to the transport's `send_input`. -/
theorem no_send_before_started (g : Gamepad) (h : g.started = false) :
    (∀ bs ok, (g.press_buttons bs ok).sends = []) ∧
    (∀ bs ok, (g.release_buttons bs ok).sends = []) ∧
    (∀ ok, (g.release_all_buttons ok).sends = []) ∧
    (∀ bs ok1 ok2, (g.click_buttons bs ok1 ok2).sends = []) ∧
    (∀ x y z rz ok, (g.move_joysticks x y z rz ok).sends = []) ∧
    (∀ ok, (g.reset_all ok).sends = []) := by
  refine ⟨fun bs ok => (press_not_started g bs ok h).1,
    fun bs ok => (release_not_started g bs ok h).1,
    fun ok => ?_,
    fun bs ok1 ok2 => click_not_started g bs ok1 ok2 h,
    fun x y z rz ok => (move_not_started g x y z rz ok h).1,
    fun ok => reset_not_started g ok h⟩
  unfold Gamepad.release_all_buttons
  rw [send_report_not_started { g with buttons_state := 0 } false ok h]

/-- Witness for C2: a freshly constructed gamepad (not yet opened) sends
nothing on a press and on a forced reset. -/
theorem no_send_before_started_witness :
    (Gamepad.init.1.press_buttons [3] true).sends = [] ∧
    (Gamepad.init.1.reset_all true).sends = [] :=
  ⟨(no_send_before_started Gamepad.init.1 rfl).1 [3] true,
    (no_send_before_started Gamepad.init.1 rfl).2.2.2.2.2 true⟩

end UhidGamepad
